import Mathlib

/-!
Shallow embedding of the sprite-sheet tile picker core
(`src/components/ImageViewer.vue`, `src/App.vue`, grid settings and image
uploader components).  JavaScript numbers are modelled as exact rationals;
`Math.floor` is `Int.floor` cast back to `ℚ`; the JS remainder operator `%`
is `jsMod` (truncated division).  Fallible or absent values are `Option`.
-/

namespace SpritePicker

/-- Grid addressing mode (`gridMode` prop: `'size' | 'count'`). -/
inductive GridMode
  | size
  | count
deriving DecidableEq, Repr

/-- `MIN_SCALE = 0.1` from ImageViewer.vue line 31. -/
def MIN_SCALE : ℚ := 1 / 10

/-- `MAX_SCALE = 10` from ImageViewer.vue line 32. -/
def MAX_SCALE : ℚ := 10

/-- Viewport state: the refs `scale`, `offsetX`, `offsetY` (lines 23-25). -/
@[ext]
structure ViewportState where
  scale : ℚ
  offsetX : ℚ
  offsetY : ℚ
deriving DecidableEq, Repr

/-- `cellWidth` computed property (lines 38-43): tile width in SIZE mode is
`gridX`; in COUNT mode it is `imageWidth / gridX`. -/
def cellWidth (gridMode : GridMode) (gridX imageWidth : ℚ) : ℚ :=
  match gridMode with
  | .size => gridX
  | .count => imageWidth / gridX

/-- `cellHeight` computed property (lines 45-50). -/
def cellHeight (gridMode : GridMode) (gridY imageHeight : ℚ) : ℚ :=
  match gridMode with
  | .size => gridY
  | .count => imageHeight / gridY

/-- `colCount` computed property (lines 52-57).  The JS expression
`Math.floor(imageWidth / gridX) || 1` yields 1 when the floor is 0. -/
def colCount (gridMode : GridMode) (gridX imageWidth : ℚ) : ℚ :=
  match gridMode with
  | .size => if (⌊imageWidth / gridX⌋ : ℚ) = 0 then 1 else (⌊imageWidth / gridX⌋ : ℚ)
  | .count => gridX

/-- `rowCount` computed property (lines 59-64). -/
def rowCount (gridMode : GridMode) (gridY imageHeight : ℚ) : ℚ :=
  match gridMode with
  | .size => if (⌊imageHeight / gridY⌋ : ℚ) = 0 then 1 else (⌊imageHeight / gridY⌋ : ℚ)
  | .count => gridY

/-- The four derived grid quantities bundled together. -/
@[ext]
structure Geometry where
  cellWidth : ℚ
  cellHeight : ℚ
  colCount : ℚ
  rowCount : ℚ
deriving DecidableEq, Repr

/-- The grid geometry derived from the mode, config values and image size,
assembling the four computed properties of ImageViewer.vue lines 38-64. -/
def gridGeometry (gridMode : GridMode) (gridX gridY imageWidth imageHeight : ℚ) : Geometry :=
  ⟨cellWidth gridMode gridX imageWidth, cellHeight gridMode gridY imageHeight,
   colCount gridMode gridX imageWidth, rowCount gridMode gridY imageHeight⟩

/-- A tile reference `{ index, row, col }` as produced by `getTileAtPosition`. -/
@[ext]
structure Tile where
  index : ℚ
  row : ℚ
  col : ℚ
deriving DecidableEq, Repr

/-- `screenToImage` (lines 202-209).  The source first subtracts the canvas
bounding rectangle's left/top corner; `screenX`/`screenY` here are already
canvas-relative coordinates. -/
def screenToImage (v : ViewportState) (screenX screenY : ℚ) : ℚ × ℚ :=
  ((screenX - v.offsetX) / v.scale, (screenY - v.offsetY) / v.scale)

/-- The render-time transform (draw, lines 117-118: translate by offset then
scale): image-space point to canvas-relative screen point.  Inverse of
`screenToImage`. -/
def imageToScreen (v : ViewportState) (x y : ℚ) : ℚ × ℚ :=
  (x * v.scale + v.offsetX, y * v.scale + v.offsetY)

/-- `getTileAtPosition` (lines 211-227): hit test an image-space point. -/
def getTileAtPosition (g : Geometry) (imageWidth imageHeight imgX imgY : ℚ) : Option Tile :=
  if imgX < 0 ∨ imgY < 0 ∨ imageWidth ≤ imgX ∨ imageHeight ≤ imgY then
    none
  else if g.colCount ≤ (⌊imgX / g.cellWidth⌋ : ℚ) ∨ g.rowCount ≤ (⌊imgY / g.cellHeight⌋ : ℚ) then
    none
  else
    some ⟨(⌊imgY / g.cellHeight⌋ : ℚ) * g.colCount + (⌊imgX / g.cellWidth⌋ : ℚ),
          (⌊imgY / g.cellHeight⌋ : ℚ), (⌊imgX / g.cellWidth⌋ : ℚ)⟩

/-- The zoom step shared by `handleWheel` (lines 238-247): clamp the scale,
then correct the offsets with the ratio actually applied so the anchor point
stays fixed. -/
def zoomAt (v : ViewportState) (mouseX mouseY zoomFactor : ℚ) : ViewportState :=
  let newScale := max MIN_SCALE (min MAX_SCALE (v.scale * zoomFactor))
  let scaleRatio := newScale / v.scale
  ⟨newScale,
   mouseX - (mouseX - v.offsetX) * scaleRatio,
   mouseY - (mouseY - v.offsetY) * scaleRatio⟩

/-- `handleWheel` (lines 229-249): factor `0.9` when scrolling down
(`deltaY > 0`), `1.1` otherwise, anchored at the pointer. -/
def handleWheel (v : ViewportState) (mouseX mouseY deltaY : ℚ) : ViewportState :=
  zoomAt v mouseX mouseY (if 0 < deltaY then 9 / 10 else 11 / 10)

/-- `zoomIn` (lines 306-318): factor `1.25` anchored at the container centre;
only the upper bound is clamped. -/
def zoomIn (v : ViewportState) (containerWidth containerHeight : ℚ) : ViewportState :=
  let centerX := containerWidth / 2
  let centerY := containerHeight / 2
  let newScale := min MAX_SCALE (v.scale * (5 / 4))
  let scaleRatio := newScale / v.scale
  ⟨newScale,
   centerX - (centerX - v.offsetX) * scaleRatio,
   centerY - (centerY - v.offsetY) * scaleRatio⟩

/-- `zoomOut` (lines 320-332): factor `0.8` anchored at the container centre;
only the lower bound is clamped. -/
def zoomOut (v : ViewportState) (containerWidth containerHeight : ℚ) : ViewportState :=
  let centerX := containerWidth / 2
  let centerY := containerHeight / 2
  let newScale := max MIN_SCALE (v.scale * (4 / 5))
  let scaleRatio := newScale / v.scale
  ⟨newScale,
   centerX - (centerX - v.offsetX) * scaleRatio,
   centerY - (centerY - v.offsetY) * scaleRatio⟩

/-- The pan branch of `handleMouseMove` (lines 262-269) applied to the
viewport part of the state. -/
def panBy (v : ViewportState) (dx dy : ℚ) : ViewportState :=
  ⟨v.scale, v.offsetX + dx, v.offsetY + dy⟩

/-- `resetView` (lines 79-95): fit the image into the container with a 40px
padding, never upscaling past 1, then centre it. -/
def resetView (containerWidth containerHeight imgWidth imgHeight : ℚ) : ViewportState :=
  let scaleX := (containerWidth - 40) / imgWidth
  let scaleY := (containerHeight - 40) / imgHeight
  let s := min (min scaleX scaleY) 1
  ⟨s, (containerWidth - imgWidth * s) / 2, (containerHeight - imgHeight * s) / 2⟩

/-- The fields of a DOM `MouseEvent` that the handlers read.  DOM button
codes: 0 = primary (left), 1 = auxiliary (middle/wheel), 2 = secondary
(right). -/
structure MouseEvent where
  button : ℕ
  shiftKey : Bool
  clientX : ℚ
  clientY : ℚ
deriving DecidableEq, Repr

/-- The mutable refs of ImageViewer.vue that the pointer handlers and the
draw pass touch (lines 23-29). -/
@[ext]
structure ViewerState where
  scale : ℚ
  offsetX : ℚ
  offsetY : ℚ
  isPanning : Bool
  lastMouseX : ℚ
  lastMouseY : ℚ
  hoveredTile : Option ℚ
deriving DecidableEq, Repr

/-- The viewport part of the viewer state. -/
def ViewerState.viewport (st : ViewerState) : ViewportState :=
  ⟨st.scale, st.offsetX, st.offsetY⟩

/-- `handleMouseDown` (lines 251-259): middle click (`button === 1`) or
Shift + left click starts panning and records the pointer position; any
other press leaves the state untouched. -/
def handleMouseDown (st : ViewerState) (e : MouseEvent) : ViewerState :=
  if e.button = 1 ∨ (e.button = 0 ∧ e.shiftKey = true) then
    { st with isPanning := true, lastMouseX := e.clientX, lastMouseY := e.clientY }
  else
    st

/-- `handleMouseMove` (lines 261-281): while panning, apply the pointer
delta to the offsets; otherwise recompute the hovered tile index. -/
def handleMouseMove (st : ViewerState) (g : Geometry) (imageWidth imageHeight : ℚ)
    (e : MouseEvent) : ViewerState :=
  if st.isPanning = true then
    { st with
      offsetX := st.offsetX + (e.clientX - st.lastMouseX)
      offsetY := st.offsetY + (e.clientY - st.lastMouseY)
      lastMouseX := e.clientX
      lastMouseY := e.clientY }
  else
    let p := screenToImage st.viewport e.clientX e.clientY
    { st with hoveredTile := (getTileAtPosition g imageWidth imageHeight p.1 p.2).map Tile.index }

/-- `handleMouseUp` (lines 283-296).  The second component is the
`tile-click` event payload emitted by the handler (at most one per call,
`none` when nothing is emitted). -/
def handleMouseUp (st : ViewerState) (g : Geometry) (imageWidth imageHeight : ℚ)
    (e : MouseEvent) : ViewerState × Option Tile :=
  if st.isPanning = true then
    ({ st with isPanning := false }, none)
  else if e.button = 0 ∧ e.shiftKey = false then
    let p := screenToImage st.viewport e.clientX e.clientY
    (st, getTileAtPosition g imageWidth imageHeight p.1 p.2)
  else
    (st, none)

/-- JS truncated conversion to integer (rounds toward zero), used by the
remainder operator. -/
def jsTrunc (q : ℚ) : ℤ :=
  if 0 ≤ q then ⌊q⌋ else ⌈q⌉

/-- The JS remainder operator `a % b` on finite numbers: remainder of
truncated division. -/
def jsMod (a b : ℚ) : ℚ :=
  a - b * (jsTrunc (a / b) : ℚ)

/-- The hover-highlight layer of `draw` (lines 154-160): when `hoveredTile`
is non-null a translucent rectangle `(x, y, w, h)` is filled at
`(col * cellWidth, row * cellHeight)` with `col = hoveredTile % colCount`
and `row = Math.floor(hoveredTile / colCount)`; the branch reads only
`hoveredTile`, not `isPanning`. -/
def drawHoverFill (st : ViewerState) (g : Geometry) : Option (ℚ × ℚ × ℚ × ℚ) :=
  match st.hoveredTile with
  | none => none
  | some t =>
      some (jsMod t g.colCount * g.cellWidth, (⌊t / g.colCount⌋ : ℚ) * g.cellHeight,
            g.cellWidth, g.cellHeight)

/-- Row/col pair to row-major index, as in `getTileAtPosition` line 224
(`index = row * colCount + col`).  Indices and counts are nonnegative
integers in the source, so `ℕ` models them. -/
def rowColToIndex (cc r c : ℕ) : ℕ :=
  r * cc + c

/-- Index back to row/col pair, as recovered in `draw` lines 156-157
(`row = Math.floor(index / colCount)`, `col = index % colCount`). -/
def indexToRowCol (cc i : ℕ) : ℕ × ℕ :=
  (i / cc, i % cc)

/-- A file as seen by the drop and upload handlers: its `name` and MIME
`type` fields. -/
structure DragFile where
  fname : String
  fileType : String

/-- The application state owned by App.vue (refs at its top). -/
structure AppState where
  imageUrl : Option String
  gridX : ℚ
  gridY : ℚ
  gridMode : GridMode
  showNumbers : Bool
  selectedTile : Option Tile
  imageName : String
  isDragging : Bool
  dragCounter : ℤ

/-- JS `String.prototype.startsWith`, modelled on character lists. -/
def jsStartsWith (s pre : String) : Bool :=
  pre.toList.isPrefixOf s.toList

/-- The regex replace `name.replace(/\.[^/.]+$/, "")` from
`handleImageLoad`: strip a final dot followed by one or more characters
none of which is a dot or slash. -/
def stripExt (name : String) : String :=
  let rev := name.toList.reverse
  let ext := rev.takeWhile (fun c => c != '.' && c != '/')
  match rev.drop ext.length with
  | '.' :: rest => if ext.isEmpty then name else String.mk rest.reverse
  | _ => name

/-- `handleImageLoad` in App.vue (lines 17-21): commit the new image URL,
derive the base name (falling back to "spritesheet" when it is empty) and
clear the selected tile. -/
def handleImageLoad (st : AppState) (url name : String) : AppState :=
  { st with
    imageUrl := some url
    imageName := if stripExt name = "" then "spritesheet" else stripExt name
    selectedTile := none }

/-- `handleTileClick` in App.vue: store the emitted tile as the selection. -/
def handleTileClick (st : AppState) (tile : Tile) : AppState :=
  { st with selectedTile := some tile }

/-- `handleDrop` in App.vue (lines 47-60).  `createObjectURL` stands for the
browser's `URL.createObjectURL`, supplied as a parameter. -/
def handleDrop (createObjectURL : DragFile → String) (st : AppState)
    (files : List DragFile) : AppState :=
  let st1 := { st with dragCounter := 0, isDragging := false }
  match files with
  | [] => st1
  | file :: _ =>
      if jsStartsWith file.fileType "image/" then
        handleImageLoad st1 (createObjectURL file) file.fname
      else
        st1

/-- `handleFileChange` of the upload control: the `image-loaded` event
payload `(url, name)` emitted for the chosen file, or `none`. -/
def handleFileChange (createObjectURL : DragFile → String)
    (file : Option DragFile) : Option (String × String) :=
  match file with
  | none => none
  | some f =>
      if jsStartsWith f.fileType "image/" then
        some (createObjectURL f, f.fname)
      else
        none

/-- `handleInput` of the grid settings control: parse (a failed or zero
parse falls back to 1 via `parseInt(...) || 1`), clamp to `[1, 512]` in
SIZE mode or `[1, 256]` in COUNT mode, and store on the chosen axis. -/
def handleInput (st : AppState) (axisIsX : Bool) (raw : Option ℤ) : AppState :=
  let value : ℤ :=
    match raw with
    | none => 1
    | some n => if n = 0 then 1 else n
  let maxVal : ℤ :=
    match st.gridMode with
    | GridMode.size => 512
    | GridMode.count => 256
  let clampedValue := max 1 (min maxVal value)
  if axisIsX = true then
    { st with gridX := (clampedValue : ℚ) }
  else
    { st with gridY := (clampedValue : ℚ) }

/-- `toggleMode` of the grid settings control. -/
def toggleMode (st : AppState) : AppState :=
  { st with
    gridMode :=
      match st.gridMode with
      | GridMode.size => GridMode.count
      | GridMode.count => GridMode.size }

/-! # Theorems -/

/-- The JS idiom `n || 1` on a nonnegative integral number agrees with
`max 1 n`. -/
lemma ite_zero_eq_max (n : ℤ) (hn : 0 ≤ n) :
    (if ((n : ℤ) : ℚ) = 0 then (1 : ℚ) else ((n : ℤ) : ℚ)) = ((max 1 n : ℤ) : ℚ) := by
  by_cases h : n = 0
  · subst h
    simp
  · have hne : ((n : ℤ) : ℚ) ≠ 0 := by exact_mod_cast h
    rw [if_neg hne]
    have hmax : max 1 n = n := max_eq_right (by omega)
    rw [hmax]

/-- C3: for images of positive size and config values at least 1, SIZE mode
yields cell sizes equal to the config values with counts
`max (1, floor (image dimension / config value))`, and COUNT mode yields
counts equal to the config values with cell sizes
`image dimension / count`. -/
theorem gridGeometry_modes (imageW imageH x y : ℚ)
    (hw : 1 ≤ imageW) (hh : 1 ≤ imageH) (hx : 1 ≤ x) (hy : 1 ≤ y) :
    gridGeometry GridMode.size x y imageW imageH =
      ⟨x, y, ((max 1 ⌊imageW / x⌋ : ℤ) : ℚ), ((max 1 ⌊imageH / y⌋ : ℤ) : ℚ)⟩ ∧
    gridGeometry GridMode.count x y imageW imageH =
      ⟨imageW / x, imageH / y, x, y⟩ := by
  constructor
  · have h1 : (0 : ℤ) ≤ ⌊imageW / x⌋ :=
      Int.floor_nonneg.mpr (div_nonneg (by linarith) (by linarith))
    have h2 : (0 : ℤ) ≤ ⌊imageH / y⌋ :=
      Int.floor_nonneg.mpr (div_nonneg (by linarith) (by linarith))
    simp only [gridGeometry, cellWidth, cellHeight, colCount, rowCount]
    rw [ite_zero_eq_max _ h1, ite_zero_eq_max _ h2]
  · rfl

/-- Witness for C3 at a 256 x 200 image with a 16 x 48 config. -/
theorem gridGeometry_modes_witness :
    gridGeometry GridMode.size 16 48 256 200 =
      ⟨16, 48, ((max 1 ⌊(256 : ℚ) / 16⌋ : ℤ) : ℚ), ((max 1 ⌊(200 : ℚ) / 48⌋ : ℤ) : ℚ)⟩ ∧
    gridGeometry GridMode.count 16 48 256 200 =
      ⟨256 / 16, 200 / 48, 16, 48⟩ :=
  gridGeometry_modes 256 200 16 48 (by norm_num) (by norm_num) (by norm_num) (by norm_num)

/-- C4: with at least one column, row-major indices of in-range tiles are
unique, lie in `[0, colCount * rowCount)`, and `indexToRowCol` inverts
`rowColToIndex`. -/
theorem tile_index_bijection (cc rc : ℕ) (hcc : 1 ≤ cc) :
    (∀ r c, r < rc → c < cc →
      rowColToIndex cc r c < cc * rc ∧
      indexToRowCol cc (rowColToIndex cc r c) = (r, c)) ∧
    (∀ r c r2 c2, r < rc → c < cc → r2 < rc → c2 < cc →
      rowColToIndex cc r c = rowColToIndex cc r2 c2 → r = r2 ∧ c = c2) := by
  have key : ∀ r c, c < cc → indexToRowCol cc (rowColToIndex cc r c) = (r, c) := by
    intro r c hc
    unfold indexToRowCol rowColToIndex
    have hdiv : (r * cc + c) / cc = r := by
      rw [mul_comm r cc, Nat.mul_add_div (by omega)]
      simp [Nat.div_eq_of_lt hc]
    have hmod : (r * cc + c) % cc = c := by
      rw [mul_comm r cc, Nat.mul_add_mod]
      exact Nat.mod_eq_of_lt hc
    rw [hdiv, hmod]
  refine ⟨?_, ?_⟩
  · intro r c hr hc
    refine ⟨?_, key r c hc⟩
    calc r * cc + c < r * cc + cc := by omega
      _ = (r + 1) * cc := by ring
      _ ≤ rc * cc := Nat.mul_le_mul_right cc (by omega)
      _ = cc * rc := by ring
  · intro r c r2 c2 hr hc hr2 hc2 heq
    have h1 := key r c hc
    have h2 := key r2 c2 hc2
    rw [heq, h2] at h1
    exact ⟨(congrArg Prod.fst h1).symm, (congrArg Prod.snd h1).symm⟩

/-- Witness for C4 on a 2-column, 3-row grid at tile `(1, 1)`. -/
theorem tile_index_bijection_witness :
    rowColToIndex 2 1 1 < 2 * 3 ∧
    indexToRowCol 2 (rowColToIndex 2 1 1) = (1, 1) :=
  (tile_index_bijection 2 3 (by norm_num)).1 1 1 (by norm_num) (by norm_num)

/-- Counterexample for C6: on a zero-size image with config 16 x 16, SIZE
mode keeps the configured cell width 16 rather than the claimed 0, and with
a COUNT config of 3 x 2 the column count is the configured 3 rather than
the claimed 1. -/
theorem zero_image_geometry_counterexample :
    ((gridGeometry GridMode.size 16 16 0 0).cellWidth = 16 ∧ (16 : ℚ) ≠ 0) ∧
    ((gridGeometry GridMode.count 3 2 0 0).colCount = 3 ∧ (3 : ℚ) ≠ 1) := by
  norm_num [gridGeometry, cellWidth, colCount]

/-- C6 amended: on a zero-size image the geometry is total, SIZE mode
yields one row and one column whose cell size equals the configured size
(not zero), and COUNT mode yields zero-sized cells with the configured
counts (not one). -/
theorem gridGeometry_zero_image (x y : ℚ) (hx : 1 ≤ x) (hy : 1 ≤ y) :
    gridGeometry GridMode.size x y 0 0 = ⟨x, y, 1, 1⟩ ∧
    gridGeometry GridMode.count x y 0 0 = ⟨0, 0, x, y⟩ := by
  constructor <;>
    simp [gridGeometry, cellWidth, cellHeight, colCount, rowCount, zero_div]

/-- Witness for the amended C6 at config 16 x 16. -/
theorem gridGeometry_zero_image_witness :
    gridGeometry GridMode.size 16 16 0 0 = ⟨16, 16, 1, 1⟩ ∧
    gridGeometry GridMode.count 16 16 0 0 = ⟨0, 0, 16, 16⟩ :=
  gridGeometry_zero_image 16 16 (by norm_num) (by norm_num)

/-- Characterization of a positive hit: the image point must lie in
`[0, imageW) x [0, imageH)` with both floored cell coordinates below the
counts, and the result is the row-major tile. -/
lemma getTileAtPosition_eq_some_iff (g : Geometry) (imageW imageH imgX imgY : ℚ) (t : Tile) :
    getTileAtPosition g imageW imageH imgX imgY = some t ↔
      (0 ≤ imgX ∧ 0 ≤ imgY ∧ imgX < imageW ∧ imgY < imageH ∧
       (⌊imgX / g.cellWidth⌋ : ℚ) < g.colCount ∧ (⌊imgY / g.cellHeight⌋ : ℚ) < g.rowCount ∧
       t = ⟨(⌊imgY / g.cellHeight⌋ : ℚ) * g.colCount + (⌊imgX / g.cellWidth⌋ : ℚ),
            (⌊imgY / g.cellHeight⌋ : ℚ), (⌊imgX / g.cellWidth⌋ : ℚ)⟩) := by
  unfold getTileAtPosition
  by_cases h1 : imgX < 0 ∨ imgY < 0 ∨ imageW ≤ imgX ∨ imageH ≤ imgY
  · rw [if_pos h1]
    constructor
    · intro hc
      exact Option.noConfusion hc
    · rintro ⟨hx0, hy0, hxw, hyh, -, -, -⟩
      rcases h1 with h | h | h | h <;> linarith
  · rw [if_neg h1]
    push_neg at h1
    obtain ⟨hx0, hy0, hxw, hyh⟩ := h1
    by_cases h2 : g.colCount ≤ (⌊imgX / g.cellWidth⌋ : ℚ) ∨
        g.rowCount ≤ (⌊imgY / g.cellHeight⌋ : ℚ)
    · rw [if_pos h2]
      constructor
      · intro hc
        exact Option.noConfusion hc
      · rintro ⟨-, -, -, -, hcol, hrow, -⟩
        rcases h2 with h | h <;> linarith
    · rw [if_neg h2]
      push_neg at h2
      obtain ⟨hcol, hrow⟩ := h2
      rw [Option.some_inj]
      constructor
      · intro h
        exact ⟨by linarith, by linarith, hxw, hyh, hcol, hrow, h.symm⟩
      · rintro ⟨-, -, -, -, -, -, h⟩
        exact h.symm

/-- Characterization of a miss: null exactly when the point leaves
`[0, imageW) x [0, imageH)` or a floored cell coordinate reaches a count. -/
lemma getTileAtPosition_eq_none_iff (g : Geometry) (imageW imageH imgX imgY : ℚ) :
    getTileAtPosition g imageW imageH imgX imgY = none ↔
      (imgX < 0 ∨ imgY < 0 ∨ imageW ≤ imgX ∨ imageH ≤ imgY ∨
       g.colCount ≤ (⌊imgX / g.cellWidth⌋ : ℚ) ∨ g.rowCount ≤ (⌊imgY / g.cellHeight⌋ : ℚ)) := by
  unfold getTileAtPosition
  by_cases h1 : imgX < 0 ∨ imgY < 0 ∨ imageW ≤ imgX ∨ imageH ≤ imgY
  · rw [if_pos h1]
    simp only [true_iff]
    tauto
  · rw [if_neg h1]
    push_neg at h1
    obtain ⟨hx0, hy0, hxw, hyh⟩ := h1
    by_cases h2 : g.colCount ≤ (⌊imgX / g.cellWidth⌋ : ℚ) ∨
        g.rowCount ≤ (⌊imgY / g.cellHeight⌋ : ℚ)
    · rw [if_pos h2]
      simp only [true_iff]
      tauto
    · rw [if_neg h2]
      push_neg at h2
      constructor
      · intro hc
        exact Option.noConfusion hc
      · rintro (h | h | h | h | h | h) <;> linarith [h2.1, h2.2]

/-- C1: the hit test applied to the image-space point
`((screenX - offsetX) / scale, (screenY - offsetY) / scale)` produced by
`screenToImage` returns null iff the point leaves `[0, imageW) x [0, imageH)`
or a floored cell coordinate reaches its count, returns exactly the
row-major tile otherwise, and an image-space x of 10 with cell width 10
lands in column 1. -/
theorem getTileAtPosition_spec (v : ViewportState) (g : Geometry)
    (imageW imageH sx sy : ℚ) (hs : 0 < v.scale) (hcw : 0 < g.cellWidth)
    (hch : 0 < g.cellHeight) (hcc : 1 ≤ g.colCount) (hrc : 1 ≤ g.rowCount) :
    screenToImage v sx sy = ((sx - v.offsetX) / v.scale, (sy - v.offsetY) / v.scale) ∧
    (∀ t : Tile,
      getTileAtPosition g imageW imageH (screenToImage v sx sy).1 (screenToImage v sx sy).2 =
          some t ↔
        (0 ≤ (screenToImage v sx sy).1 ∧ 0 ≤ (screenToImage v sx sy).2 ∧
         (screenToImage v sx sy).1 < imageW ∧ (screenToImage v sx sy).2 < imageH ∧
         (⌊(screenToImage v sx sy).1 / g.cellWidth⌋ : ℚ) < g.colCount ∧
         (⌊(screenToImage v sx sy).2 / g.cellHeight⌋ : ℚ) < g.rowCount ∧
         t = ⟨(⌊(screenToImage v sx sy).2 / g.cellHeight⌋ : ℚ) * g.colCount +
                (⌊(screenToImage v sx sy).1 / g.cellWidth⌋ : ℚ),
              (⌊(screenToImage v sx sy).2 / g.cellHeight⌋ : ℚ),
              (⌊(screenToImage v sx sy).1 / g.cellWidth⌋ : ℚ)⟩)) ∧
    (getTileAtPosition g imageW imageH (screenToImage v sx sy).1 (screenToImage v sx sy).2 =
        none ↔
      ((screenToImage v sx sy).1 < 0 ∨ (screenToImage v sx sy).2 < 0 ∨
       imageW ≤ (screenToImage v sx sy).1 ∨ imageH ≤ (screenToImage v sx sy).2 ∨
       g.colCount ≤ (⌊(screenToImage v sx sy).1 / g.cellWidth⌋ : ℚ) ∨
       g.rowCount ≤ (⌊(screenToImage v sx sy).2 / g.cellHeight⌋ : ℚ))) ∧
    getTileAtPosition ⟨10, 10, 2, 2⟩ 20 20 10 5 = some ⟨1, 0, 1⟩ := by
  refine ⟨rfl, ?_, ?_, ?_⟩
  · intro t
    exact getTileAtPosition_eq_some_iff g imageW imageH _ _ t
  · exact getTileAtPosition_eq_none_iff g imageW imageH _ _
  · norm_num [getTileAtPosition]

/-- Witness for C1: a unit-scale viewport and a 2 x 2 grid of 10px cells on
a 20 x 20 image; the boundary point with image-space x = 10 hits column 1. -/
theorem getTileAtPosition_spec_witness :
    getTileAtPosition ⟨10, 10, 2, 2⟩ 20 20 10 5 = some ⟨1, 0, 1⟩ :=
  (getTileAtPosition_spec ⟨1, 0, 0⟩ ⟨10, 10, 2, 2⟩ 20 20 10 5 (by norm_num)
    (by norm_num) (by norm_num) (by norm_num) (by norm_num)).2.2.2

/-- C2: a wheel zoom clamps the scale to `[MIN_SCALE, MAX_SCALE]`, keeps
the image point under the pointer fixed on screen exactly (the offset
correction uses the ratio actually applied), is a full no-op when already
at a bound and the factor pushes past it, and `handleWheel` is the step at
factor 0.9 or 1.1 depending on the wheel direction. -/
theorem zoomAt_anchor (v : ViewportState) (px py f : ℚ)
    (hlo : MIN_SCALE ≤ v.scale) (hhi : v.scale ≤ MAX_SCALE) :
    (zoomAt v px py f).scale = max MIN_SCALE (min MAX_SCALE (v.scale * f)) ∧
    imageToScreen (zoomAt v px py f) (screenToImage v px py).1 (screenToImage v px py).2 =
      (px, py) ∧
    (v.scale = MAX_SCALE → 1 ≤ f → zoomAt v px py f = v) ∧
    (v.scale = MIN_SCALE → f ≤ 1 → zoomAt v px py f = v) ∧
    (∀ deltaY : ℚ,
      handleWheel v px py deltaY = zoomAt v px py (if 0 < deltaY then 9 / 10 else 11 / 10)) := by
  obtain ⟨s, ox, oy⟩ := v
  simp only [ViewportState.mk.injEq] at *
  have hs : s ≠ 0 := by
    have hpos : (0 : ℚ) < s := lt_of_lt_of_le (by norm_num [MIN_SCALE]) hlo
    exact ne_of_gt hpos
  refine ⟨rfl, ?_, ?_, ?_, fun _ => rfl⟩
  · simp only [zoomAt, imageToScreen, screenToImage, Prod.mk.injEq]
    constructor <;> (field_simp; try ring)
  · intro h1 hf
    have hmin : min MAX_SCALE (s * f) = MAX_SCALE := by
      apply min_eq_left
      rw [h1]
      calc MAX_SCALE = MAX_SCALE * 1 := by ring
        _ ≤ MAX_SCALE * f := by
            apply mul_le_mul_of_nonneg_left hf
            norm_num [MAX_SCALE]
    have hns : max MIN_SCALE (min MAX_SCALE (s * f)) = s := by
      rw [hmin, h1]
      exact max_eq_right (by norm_num [MIN_SCALE, MAX_SCALE])
    simp only [zoomAt, hns, ViewportState.mk.injEq, div_self hs]
    refine ⟨trivial, by ring, by ring⟩
  · intro h1 hf
    have hmin : min MAX_SCALE (s * f) = s * f := by
      apply min_eq_right
      rw [h1]
      calc MIN_SCALE * f ≤ MIN_SCALE * 1 := by
            apply mul_le_mul_of_nonneg_left hf
            norm_num [MIN_SCALE]
        _ ≤ MAX_SCALE := by norm_num [MIN_SCALE, MAX_SCALE]
    have hns : max MIN_SCALE (min MAX_SCALE (s * f)) = s := by
      rw [hmin, h1]
      apply max_eq_left
      calc MIN_SCALE * f ≤ MIN_SCALE * 1 := by
            apply mul_le_mul_of_nonneg_left hf
            norm_num [MIN_SCALE]
        _ = MIN_SCALE := by ring
    simp only [zoomAt, hns, ViewportState.mk.injEq, div_self hs]
    refine ⟨trivial, by ring, by ring⟩

/-- Witness for C2: zooming in by the wheel factor 1.1 from scale 1 with
the pointer at `(100, 60)`. -/
theorem zoomAt_anchor_witness :
    (zoomAt ⟨1, 20, 30⟩ 100 60 (11 / 10)).scale =
      max MIN_SCALE (min MAX_SCALE (1 * (11 / 10))) ∧
    imageToScreen (zoomAt ⟨1, 20, 30⟩ 100 60 (11 / 10))
      (screenToImage ⟨1, 20, 30⟩ 100 60).1 (screenToImage ⟨1, 20, 30⟩ 100 60).2 = (100, 60) :=
  ⟨(zoomAt_anchor ⟨1, 20, 30⟩ 100 60 (11 / 10) (by norm_num [MIN_SCALE])
      (by norm_num [MAX_SCALE])).1,
   (zoomAt_anchor ⟨1, 20, 30⟩ 100 60 (11 / 10) (by norm_num [MIN_SCALE])
      (by norm_num [MAX_SCALE])).2.1⟩

/-- Counterexample for C5: the fit-to-container reset on a 50 x 50
container with a 1000 x 1000 image sets the scale to 1/100, strictly below
`MIN_SCALE`. -/
theorem resetView_below_min_scale :
    (resetView 50 50 1000 1000).scale < MIN_SCALE := by
  norm_num [resetView, MIN_SCALE, min_def]

/-- C5 amended: wheel zoom, the zoom buttons and panning all preserve
`MIN_SCALE <= scale <= MAX_SCALE`; the fit-to-container reset never sets a
scale above 1 and respects the lower bound only under the proviso that both
fit ratios `(container - 40) / image` are at least `MIN_SCALE`. -/
theorem viewport_scale_bounds (v : ViewportState) (px py f deltaY dx dy cw ch : ℚ)
    (hlo : MIN_SCALE ≤ v.scale) (hhi : v.scale ≤ MAX_SCALE) :
    (MIN_SCALE ≤ (zoomAt v px py f).scale ∧ (zoomAt v px py f).scale ≤ MAX_SCALE) ∧
    (MIN_SCALE ≤ (handleWheel v px py deltaY).scale ∧
      (handleWheel v px py deltaY).scale ≤ MAX_SCALE) ∧
    (MIN_SCALE ≤ (zoomIn v cw ch).scale ∧ (zoomIn v cw ch).scale ≤ MAX_SCALE) ∧
    (MIN_SCALE ≤ (zoomOut v cw ch).scale ∧ (zoomOut v cw ch).scale ≤ MAX_SCALE) ∧
    (panBy v dx dy).scale = v.scale ∧
    (∀ cw2 ch2 iw ih : ℚ,
      MIN_SCALE ≤ (cw2 - 40) / iw → MIN_SCALE ≤ (ch2 - 40) / ih →
      MIN_SCALE ≤ (resetView cw2 ch2 iw ih).scale ∧
        (resetView cw2 ch2 iw ih).scale ≤ MAX_SCALE) := by
  have hclamp : ∀ q : ℚ,
      MIN_SCALE ≤ max MIN_SCALE (min MAX_SCALE q) ∧
        max MIN_SCALE (min MAX_SCALE q) ≤ MAX_SCALE := by
    intro q
    exact ⟨le_max_left _ _,
      max_le (by norm_num [MIN_SCALE, MAX_SCALE]) (min_le_left _ _)⟩
  refine ⟨hclamp _, hclamp _, ⟨?_, ?_⟩, ⟨?_, ?_⟩, rfl, ?_⟩
  · simp only [zoomIn]
    refine le_min (by norm_num [MIN_SCALE, MAX_SCALE]) ?_
    have h2 : (1 : ℚ) / 10 ≤ v.scale := hlo
    show (1 : ℚ) / 10 ≤ v.scale * (5 / 4)
    linarith
  · simp only [zoomIn]
    exact min_le_left _ _
  · simp only [zoomOut]
    exact le_max_left _ _
  · simp only [zoomOut]
    refine max_le (by norm_num [MIN_SCALE, MAX_SCALE]) ?_
    have h2 : v.scale ≤ (10 : ℚ) := hhi
    show v.scale * (4 / 5) ≤ (10 : ℚ)
    linarith
  · intro cw2 ch2 iw ih h1 h2
    constructor
    · simp only [resetView]
      exact le_min (le_min h1 h2) (by norm_num [MIN_SCALE])
    · simp only [resetView]
      exact le_trans (min_le_right _ 1) (by norm_num [MAX_SCALE])

/-- Witness for the amended C5 at scale 1 with concrete gesture inputs and
an 800 x 600 container fit of a 100 x 100 image. -/
theorem viewport_scale_bounds_witness :
    (MIN_SCALE ≤ (zoomAt ⟨1, 0, 0⟩ 3 4 2).scale ∧ (zoomAt ⟨1, 0, 0⟩ 3 4 2).scale ≤ MAX_SCALE) ∧
    (MIN_SCALE ≤ (handleWheel ⟨1, 0, 0⟩ 3 4 1).scale ∧
      (handleWheel ⟨1, 0, 0⟩ 3 4 1).scale ≤ MAX_SCALE) ∧
    (MIN_SCALE ≤ (zoomIn ⟨1, 0, 0⟩ 800 600).scale ∧
      (zoomIn ⟨1, 0, 0⟩ 800 600).scale ≤ MAX_SCALE) ∧
    (MIN_SCALE ≤ (zoomOut ⟨1, 0, 0⟩ 800 600).scale ∧
      (zoomOut ⟨1, 0, 0⟩ 800 600).scale ≤ MAX_SCALE) ∧
    (panBy ⟨1, 0, 0⟩ 5 6).scale = (⟨1, 0, 0⟩ : ViewportState).scale ∧
    (MIN_SCALE ≤ (resetView 800 600 100 100).scale ∧
      (resetView 800 600 100 100).scale ≤ MAX_SCALE) := by
  have h := viewport_scale_bounds ⟨1, 0, 0⟩ 3 4 2 1 5 6 800 600
    (by norm_num [MIN_SCALE]) (by norm_num [MAX_SCALE])
  exact ⟨h.1, h.2.1, h.2.2.1, h.2.2.2.1, h.2.2.2.2.1,
    h.2.2.2.2.2 800 600 100 100 (by norm_num [MIN_SCALE]) (by norm_num [MIN_SCALE])⟩

/-- Counterexample for C7: a render state that is panning with a stored
hovered tile still produces a hover-highlight fill, because the draw pass
never consults `isPanning` for that layer. -/
theorem hover_fill_drawn_while_panning :
    drawHoverFill ⟨1, 0, 0, true, 0, 0, some 0⟩
      (gridGeometry GridMode.size 16 16 64 64) ≠ none := by
  simp [drawHoverFill]

/-- C7 amended: the hover-highlight fill is drawn exactly when
`hoveredTile` is non-null, independently of `isPanning`; pointer moves
made while panning leave `hoveredTile` unchanged (but a hover recorded
before the pan began is still drawn during it). -/
theorem drawHoverFill_hover_only (st : ViewerState) (g : Geometry)
    (imageW imageH : ℚ) (e : MouseEvent) :
    (∀ b : Bool, drawHoverFill { st with isPanning := b } g = drawHoverFill st g) ∧
    (drawHoverFill st g = none ↔ st.hoveredTile = none) ∧
    (st.isPanning = true →
      (handleMouseMove st g imageW imageH e).hoveredTile = st.hoveredTile) := by
  refine ⟨fun b => rfl, ?_, ?_⟩
  · cases h : st.hoveredTile <;> simp [drawHoverFill, h]
  · intro hp
    simp [handleMouseMove, hp]

/-- Witness for the amended C7: a concrete panning state with a hover. -/
theorem drawHoverFill_hover_only_witness :
    (drawHoverFill ⟨1, 0, 0, false, 0, 0, some 0⟩
        (gridGeometry GridMode.size 16 16 64 64) = none ↔
      (⟨1, 0, 0, false, 0, 0, some 0⟩ : ViewerState).hoveredTile = none) ∧
    (handleMouseMove ⟨1, 0, 0, true, 0, 0, some 0⟩
        (gridGeometry GridMode.size 16 16 64 64) 64 64 ⟨0, false, 9, 9⟩).hoveredTile =
      (⟨1, 0, 0, true, 0, 0, some 0⟩ : ViewerState).hoveredTile :=
  ⟨(drawHoverFill_hover_only ⟨1, 0, 0, false, 0, 0, some 0⟩
      (gridGeometry GridMode.size 16 16 64 64) 64 64 ⟨0, false, 9, 9⟩).2.1,
   (drawHoverFill_hover_only ⟨1, 0, 0, true, 0, 0, some 0⟩
      (gridGeometry GridMode.size 16 16 64 64) 64 64 ⟨0, false, 9, 9⟩).2.2 rfl⟩

/-- C8: a release while panning only ends the pan and emits nothing; a
primary-button release without Shift while idle leaves the state unchanged
and emits exactly the hit-test result (nothing on a miss); any other idle
release emits nothing.  The event is an `Option`, so at most one event is
emitted per release. -/
theorem handleMouseUp_spec (st : ViewerState) (g : Geometry)
    (imageW imageH : ℚ) (e : MouseEvent) :
    (st.isPanning = true →
      handleMouseUp st g imageW imageH e = ({ st with isPanning := false }, none)) ∧
    (st.isPanning = false → e.button = 0 → e.shiftKey = false →
      handleMouseUp st g imageW imageH e =
        (st, getTileAtPosition g imageW imageH
          ((e.clientX - st.offsetX) / st.scale) ((e.clientY - st.offsetY) / st.scale))) ∧
    (st.isPanning = false → ¬(e.button = 0 ∧ e.shiftKey = false) →
      handleMouseUp st g imageW imageH e = (st, none)) := by
  refine ⟨?_, ?_, ?_⟩
  · intro hp
    simp [handleMouseUp, hp]
  · intro hp hb hsh
    simp [handleMouseUp, hp, hb, hsh, screenToImage, ViewerState.viewport]
  · intro hp hb
    simp [handleMouseUp, hp, hb]

/-- Witness for C8: a pan release, then an idle primary release that hits
tile `(0, 1)` of a 2 x 2 grid of 10px cells. -/
theorem handleMouseUp_spec_witness :
    handleMouseUp ⟨1, 0, 0, true, 0, 0, none⟩ ⟨10, 10, 2, 2⟩ 20 20 ⟨0, false, 10, 5⟩ =
      ({ (⟨1, 0, 0, true, 0, 0, none⟩ : ViewerState) with isPanning := false }, none) ∧
    handleMouseUp ⟨1, 0, 0, false, 0, 0, none⟩ ⟨10, 10, 2, 2⟩ 20 20 ⟨0, false, 10, 5⟩ =
      (⟨1, 0, 0, false, 0, 0, none⟩,
        getTileAtPosition ⟨10, 10, 2, 2⟩ 20 20 ((10 - 0) / 1) ((5 - 0) / 1)) :=
  ⟨(handleMouseUp_spec ⟨1, 0, 0, true, 0, 0, none⟩ ⟨10, 10, 2, 2⟩ 20 20
      ⟨0, false, 10, 5⟩).1 rfl,
   (handleMouseUp_spec ⟨1, 0, 0, false, 0, 0, none⟩ ⟨10, 10, 2, 2⟩ 20 20
      ⟨0, false, 10, 5⟩).2.1 rfl rfl rfl⟩

/-- Counterexample for C9: a press of the DOM secondary button (code 2)
while idle does not start panning, while a press of the auxiliary middle
button (code 1) does, so the pan trigger is the middle button, not the
secondary one. -/
theorem secondary_button_press_counterexample :
    (handleMouseDown ⟨1, 0, 0, false, 0, 0, none⟩ ⟨2, false, 5, 7⟩).isPanning = false ∧
    (handleMouseDown ⟨1, 0, 0, false, 0, 0, none⟩ ⟨1, false, 5, 7⟩).isPanning = true := by
  constructor <;> simp [handleMouseDown]

/-- C9 amended: from an idle state, the transition to panning happens
exactly on an auxiliary (middle, code 1) button press or a primary (code 0)
press with Shift held; such a press records the pointer position in
`lastMouseX`/`lastMouseY`, and any other press leaves the state untouched. -/
theorem handleMouseDown_pan_intent (st : ViewerState) (e : MouseEvent)
    (hidle : st.isPanning = false) :
    ((handleMouseDown st e).isPanning = true ↔
      (e.button = 1 ∨ (e.button = 0 ∧ e.shiftKey = true))) ∧
    (e.button = 1 ∨ (e.button = 0 ∧ e.shiftKey = true) →
      handleMouseDown st e =
        { st with isPanning := true, lastMouseX := e.clientX, lastMouseY := e.clientY }) ∧
    (¬(e.button = 1 ∨ (e.button = 0 ∧ e.shiftKey = true)) →
      handleMouseDown st e = st) := by
  by_cases h : e.button = 1 ∨ (e.button = 0 ∧ e.shiftKey = true)
  · refine ⟨?_, fun _ => ?_, fun hc => absurd h hc⟩
    · simp [handleMouseDown, h]
    · simp [handleMouseDown, h]
  · refine ⟨?_, fun hc => absurd hc h, fun _ => ?_⟩
    · simp [handleMouseDown, h, hidle]
    · simp [handleMouseDown, h]

/-- Witness for the amended C9: a Shift + left press starts a pan and
records the pointer position; a plain left press does not. -/
theorem handleMouseDown_pan_intent_witness :
    handleMouseDown ⟨1, 0, 0, false, 0, 0, none⟩ ⟨0, true, 5, 7⟩ =
      { (⟨1, 0, 0, false, 0, 0, none⟩ : ViewerState) with
        isPanning := true, lastMouseX := 5, lastMouseY := 7 } ∧
    handleMouseDown ⟨1, 0, 0, false, 0, 0, none⟩ ⟨0, false, 5, 7⟩ =
      ⟨1, 0, 0, false, 0, 0, none⟩ :=
  ⟨(handleMouseDown_pan_intent ⟨1, 0, 0, false, 0, 0, none⟩ ⟨0, true, 5, 7⟩ rfl).2.1
      (Or.inr ⟨rfl, rfl⟩),
   (handleMouseDown_pan_intent ⟨1, 0, 0, false, 0, 0, none⟩ ⟨0, false, 5, 7⟩ rfl).2.2
      (by simp)⟩

/-- C10: committing a new image through `handleImageLoad` (directly, via a
drop of an image file, or via the upload control's change handler) always
leaves `selectedTile = null`, whereas grid-config changes (axis input or
mode toggle) never touch the selection. -/
theorem image_load_clears_selection :
    (∀ (st : AppState) (url name : String),
      (handleImageLoad st url name).selectedTile = none) ∧
    (∀ (createObjectURL : DragFile → String) (st : AppState) (f : DragFile)
        (rest : List DragFile),
      jsStartsWith f.fileType "image/" = true →
      (handleDrop createObjectURL st (f :: rest)).selectedTile = none) ∧
    (∀ (createObjectURL : DragFile → String) (st : AppState) (file : Option DragFile)
        (url name : String),
      handleFileChange createObjectURL file = some (url, name) →
      (handleImageLoad st url name).selectedTile = none) ∧
    (∀ (st : AppState) (axisIsX : Bool) (raw : Option ℤ),
      (handleInput st axisIsX raw).selectedTile = st.selectedTile) ∧
    (∀ st : AppState, (toggleMode st).selectedTile = st.selectedTile) := by
  refine ⟨fun st url name => rfl, ?_, fun _ st _ url name _ => rfl, ?_, fun st => rfl⟩
  · intro createObjectURL st f rest hf
    simp [handleDrop, hf, handleImageLoad]
  · intro st axisIsX raw
    cases axisIsX <;> simp [handleInput]

/-- Witness for C10 with a concrete PNG drop. -/
theorem image_load_clears_selection_witness :
    (handleDrop (fun f => f.fname) ⟨none, 16, 16, GridMode.size, false, none, "spritesheet",
        false, 0⟩ [⟨"hero.png", "image/png"⟩]).selectedTile = none :=
  image_load_clears_selection.2.1 (fun f => f.fname)
    ⟨none, 16, 16, GridMode.size, false, none, "spritesheet", false, 0⟩
    ⟨"hero.png", "image/png"⟩ [] (by decide)

end SpritePicker
